import Mathlib

/-!
Shallow embedding of the vote-aggregation and live-merge engine of
`src/app/page.tsx` (vulalabs/memecoinvote), together with theorems settling
the specification claims about it.

The embedding follows the source closely:
* `JupiterToken`, `FirebaseData`, `Token` mirror the TypeScript interfaces.
* `combinedTokens` mirrors the `jupiterTokens.map(...)` join in the
  `onSnapshot` callback.
* `fetchJupiterTokens`, `onSnapshotCallback`, `onSnapshotError`, `step` model
  the subscription-driven state machine of the `Home` component; the React
  state (`tokens`, `isLoading`) becomes an explicit `EngineState`, and the
  number of catalog-fetch invocations is carried as instrumentation.
* `matchesSearch` and `filteredAndSortedTokens` mirror the derived
  `filteredAndSortedTokens` expression; JavaScript's stable `Array.sort`
  (stability is guaranteed by ES2019) with comparator
  `(a, b) => b.likes - a.likes` is modelled by the stable `List.mergeSort`
  with the boolean order `b.likes ≤ a.likes`.
* The Firestore write path (`setDoc(ref, \x7bfield: increment(1)\x7d, \x7bmerge: true\x7d)`)
  is external library behaviour, modelled from the spec as an atomic
  read-modify-write on a document store (`setDocMergeInc`).
-/

namespace MemecoinVote

/-- Mirrors `interface JupiterToken` of page.tsx (the catalog entry). -/
structure JupiterToken where
  address : String
  name : String
  symbol : String
  decimals : Nat
  logoURI : String
  tags : List String
  daily_volume : Nat
  freeze_authority : Option String
  mint_authority : Option String
  deriving DecidableEq

/-- Mirrors `interface FirebaseData` of page.tsx (one tally document). -/
structure FirebaseData where
  likes : Nat
  dislikes : Nat
  deriving DecidableEq

/-- Mirrors `interface Token extends JupiterToken` of page.tsx: the ViewEntry,
a catalog entry joined with its vote counts. -/
structure Token where
  address : String
  name : String
  symbol : String
  decimals : Nat
  logoURI : String
  tags : List String
  daily_volume : Nat
  freeze_authority : Option String
  mint_authority : Option String
  likes : Nat
  dislikes : Nat
  deriving DecidableEq

/-- Forgets the vote counts, recovering the catalog entry a `Token` was
built from (the spread `...jToken` in the source copies these fields). -/
def Token.toJupiter (t : Token) : JupiterToken :=
  { address := t.address
    name := t.name
    symbol := t.symbol
    decimals := t.decimals
    logoURI := t.logoURI
    tags := t.tags
    daily_volume := t.daily_volume
    freeze_authority := t.freeze_authority
    mint_authority := t.mint_authority }

/-- The `Record<string, FirebaseData>` snapshot assembled from Firestore
document ids, as an association list keyed by address. -/
abbrev TallyMap := List (String × FirebaseData)

/-- `firebaseData[address]`: lookup of one address in the tally snapshot. -/
def lookupTally (m : TallyMap) (a : String) : Option FirebaseData :=
  List.lookup a m

/-- One element of the `combinedTokens` map in page.tsx:
`\x7b ...jToken, likes: firebaseData[jToken.address]?.likes || 0, dislikes: ... \x7d`.
(The counts are natural numbers, so `|| 0` is exactly `getD 0`.) -/
def joinToken (firebaseData : TallyMap) (jToken : JupiterToken) : Token :=
  { address := jToken.address
    name := jToken.name
    symbol := jToken.symbol
    decimals := jToken.decimals
    logoURI := jToken.logoURI
    tags := jToken.tags
    daily_volume := jToken.daily_volume
    freeze_authority := jToken.freeze_authority
    mint_authority := jToken.mint_authority
    likes := ((lookupTally firebaseData jToken.address).map FirebaseData.likes).getD 0
    dislikes := ((lookupTally firebaseData jToken.address).map FirebaseData.dislikes).getD 0 }

/-- `combinedTokens` of page.tsx lines 130-134: the join of the fetched
catalog with the current tally snapshot. -/
def combinedTokens (jupiterTokens : List JupiterToken) (firebaseData : TallyMap) :
    List Token :=
  jupiterTokens.map (joinToken firebaseData)

/- Sample data used by the concrete witnesses. -/

/-- A sample catalog entry. -/
def sampleCatA : JupiterToken :=
  { address := "A"
    name := "Foo Token"
    symbol := "FOO"
    decimals := 9
    logoURI := "https://x/a.png"
    tags := ["community"]
    daily_volume := 100
    freeze_authority := none
    mint_authority := none }

/-- A second sample catalog entry. -/
def sampleCatB : JupiterToken :=
  { address := "B2"
    name := "Bar"
    symbol := "BAR"
    decimals := 6
    logoURI := "https://x/b.png"
    tags := []
    daily_volume := 5
    freeze_authority := some "fa"
    mint_authority := none }

/-- A sample catalog snapshot. -/
def sampleCatalog : List JupiterToken := [sampleCatA, sampleCatB]

/-- A sample tally snapshot; address "Z" has no catalog counterpart. -/
def sampleTally : TallyMap := [("A", ⟨3, 4⟩), ("Z", ⟨9, 9⟩)]

/-- The ViewEntry built for `sampleCatA` under `sampleTally`. -/
def sampleTokenA : Token := joinToken sampleTally sampleCatA

/-- C1: for every tally mapping T and catalog snapshot C, the merged ViewEntry
sequence has exactly one entry per CatalogEntry of C in catalog order
(projecting away the counts recovers C itself); each entry's counts equal
T[address] when a tally exists for that address and {0,0} otherwise; and every
produced entry's address comes from C, so no entry is produced for an address
present in T but absent from C. -/
theorem combinedTokens_spec (C : List JupiterToken) (T : TallyMap) :
    (combinedTokens C T).map Token.toJupiter = C
    ∧ (∀ t ∈ combinedTokens C T,
        (∀ d, lookupTally T t.address = some d →
            t.likes = d.likes ∧ t.dislikes = d.dislikes)
        ∧ (lookupTally T t.address = none → t.likes = 0 ∧ t.dislikes = 0))
    ∧ (∀ t ∈ combinedTokens C T, t.address ∈ C.map JupiterToken.address) := by
  refine ⟨?_, ?_, ?_⟩
  · rw [combinedTokens, List.map_map]
    have h : Token.toJupiter ∘ joinToken T = id := funext fun j => rfl
    rw [h, List.map_id]
  · intro t ht
    rcases List.mem_map.mp ht with ⟨j, _, rfl⟩
    constructor
    · intro d hd
      have ha : (joinToken T j).address = j.address := rfl
      rw [ha] at hd
      exact ⟨by simp [joinToken, hd], by simp [joinToken, hd]⟩
    · intro hn
      have ha : (joinToken T j).address = j.address := rfl
      rw [ha] at hn
      exact ⟨by simp [joinToken, hn], by simp [joinToken, hn]⟩
  · intro t ht
    rcases List.mem_map.mp ht with ⟨j, hj, rfl⟩
    exact List.mem_map.mpr ⟨j, hj, rfl⟩

/-- Concrete witness for C1: under `sampleTally`, the entry for address "A"
(which has tally {3,4}) carries likes 3 and dislikes 4, and the projection
recovers the catalog. -/
theorem combinedTokens_spec_witness :
    (combinedTokens sampleCatalog sampleTally).map Token.toJupiter = sampleCatalog
    ∧ sampleTokenA.likes = 3 ∧ sampleTokenA.dislikes = 4 := by
  have h := combinedTokens_spec sampleCatalog sampleTally
  refine ⟨h.1, ?_⟩
  have hm : sampleTokenA ∈ combinedTokens sampleCatalog sampleTally := by decide
  have hl : lookupTally sampleTally sampleTokenA.address = some ⟨3, 4⟩ := by decide
  exact (h.2.1 sampleTokenA hm).1 ⟨3, 4⟩ hl

/-! ### The subscription-driven engine state machine -/

/-- The outcome of the network round-trip attempted inside
`fetchJupiterTokens`: either the decoded token array, or an error
(transport failure, the thrown `HTTP error` on a non-2xx status, or a
JSON decode failure). -/
abbrev FetchOutcome := Except String (List JupiterToken)

/-- `fetchJupiterTokens` of page.tsx lines 96-111: returns the decoded data
on success; its `catch` block logs any error and returns an empty array, so
the function is total and never propagates an error to its caller. -/
def fetchJupiterTokens : FetchOutcome → List JupiterToken
  | Except.ok data => data
  | Except.error _ => []

/-- The React state of the `Home` component (`tokens`, `isLoading`), plus an
instrumentation counter recording how many times `fetchJupiterTokens` has
been invoked during the session. -/
structure EngineState where
  tokens : List Token
  isLoading : Bool
  fetchCount : Nat
  deriving DecidableEq

/-- The initial state of the component:
`useState<Token[]>([])` and `useState(true)` for `isLoading`. -/
def initState : EngineState := { tokens := [], isLoading := true, fetchCount := 0 }

/-- An event delivered to the engine during a session: either the `onSnapshot`
success callback fires with a tally snapshot (the catalog-fetch outcome at
that moment is part of the event), or the subscription error callback fires. -/
inductive SessionEvent where
  | snapshot (tally : TallyMap) (outcome : FetchOutcome)
  | subError (msg : String)

/-- The `onSnapshot` success callback of page.tsx lines 115-142: it builds the
tally map, invokes `fetchJupiterTokens` (unconditionally — there is no cache
check), joins the result with the tally map, replaces `tokens` wholesale and
sets `isLoading` to false. -/
def onSnapshotCallback (s : EngineState) (tally : TallyMap) (outcome : FetchOutcome) :
    EngineState :=
  let jupiterTokens := fetchJupiterTokens outcome
  { tokens := combinedTokens jupiterTokens tally
    isLoading := false
    fetchCount := s.fetchCount + 1 }

/-- The `onSnapshot` error callback of page.tsx lines 143-146: it logs the
error and sets `isLoading` to false, leaving `tokens` untouched. -/
def onSnapshotError (s : EngineState) (_msg : String) : EngineState :=
  { s with isLoading := false }

/-- One step of the session state machine. -/
def step (s : EngineState) : SessionEvent → EngineState
  | SessionEvent.snapshot tally outcome => onSnapshotCallback s tally outcome
  | SessionEvent.subError msg => onSnapshotError s msg

/-- A whole session: the events delivered to the subscription, folded from the
initial component state. -/
def runSession (events : List SessionEvent) : EngineState :=
  events.foldl step initState

/-- The number of tally-snapshot deliveries in an event list. -/
def countSnapshots : List SessionEvent → Nat
  | [] => 0
  | SessionEvent.snapshot _ _ :: es => countSnapshots es + 1
  | SessionEvent.subError _ :: es => countSnapshots es

/-- A benign snapshot event: empty tally, successful fetch of an empty list. -/
def snapEmpty : SessionEvent := SessionEvent.snapshot [] (Except.ok [])

/-- C2 counterexample: after two tally-snapshot deliveries the engine has
invoked the catalog fetch twice — the claimed "at most once per session"
(which would leave the count at 1 after the second delivery) is false, because
the `onSnapshot` callback calls `fetchJupiterTokens()` unconditionally on
every delivery. -/
theorem catalog_refetch_counterexample :
    (runSession [snapEmpty, snapEmpty]).fetchCount = 2
    ∧ ¬ (runSession [snapEmpty, snapEmpty]).fetchCount = 1 := by
  constructor
  · rfl
  · decide

/-- Auxiliary: folding the step function adds one fetch per snapshot event. -/
theorem foldl_step_fetchCount (events : List SessionEvent) :
    ∀ s : EngineState,
      (events.foldl step s).fetchCount = s.fetchCount + countSnapshots events := by
  induction events with
  | nil => intro s; rfl
  | cons e es ih =>
    intro s
    cases e with
    | snapshot tally outcome =>
      rw [List.foldl_cons, ih, countSnapshots]
      simp [step, onSnapshotCallback]
      omega
    | subError msg =>
      rw [List.foldl_cons, ih, countSnapshots]
      rfl

/-- C2 amended: the catalog is fetched once per tally-snapshot delivery, not
once per session — every `onSnapshot` callback invocation calls
`fetchJupiterTokens()` again (there is no caching), so after a session the
number of fetch invocations equals the number of snapshot deliveries; in
particular a tally update arriving after a vote does trigger a re-fetch. -/
theorem catalog_fetch_per_snapshot (events : List SessionEvent) :
    (runSession events).fetchCount = countSnapshots events := by
  rw [runSession, foldl_step_fetchCount]
  simp [initState]

/-- C3: the catalog fetch never throws to its caller — on any transport
failure, decode failure or non-2xx status (all modelled by an `error`
outcome) it returns the empty sequence; consequently the snapshot step that
runs with a failed fetch produces an empty ViewEntry sequence and loading =
false. (`fetchJupiterTokens` is a total function, so no exception escapes.) -/
theorem fetch_failure_degrades (s : EngineState) (tally : TallyMap) (e : String) :
    fetchJupiterTokens (Except.error e) = []
    ∧ (step s (SessionEvent.snapshot tally (Except.error e))).tokens = []
    ∧ (step s (SessionEvent.snapshot tally (Except.error e))).isLoading = false :=
  ⟨rfl, rfl, rfl⟩

/-- C9: the loading state machine — the session starts with loading = true
and an empty ViewEntry sequence; every completed join of a tally snapshot
with the catalog (the snapshot step) sets loading to false; and once loading
is false no step ever brings it back to true. -/
theorem loading_state_machine (s : EngineState) (tally : TallyMap)
    (outcome : FetchOutcome) (e : SessionEvent) :
    initState.isLoading = true
    ∧ initState.tokens = []
    ∧ (step s (SessionEvent.snapshot tally outcome)).isLoading = false
    ∧ (s.isLoading = false → (step s e).isLoading = false) := by
  refine ⟨rfl, rfl, rfl, ?_⟩
  intro _
  cases e with
  | snapshot tally outcome => rfl
  | subError msg => rfl

/-- Concrete witness for C9: after a first snapshot delivery loading is
false, and a further subscription-error event keeps it false. -/
theorem loading_state_machine_witness :
    (step (step initState snapEmpty) (SessionEvent.subError "boom")).isLoading = false :=
  (loading_state_machine (step initState snapEmpty) [] (Except.ok [])
    (SessionEvent.subError "boom")).2.2.2 rfl

/-- C10: the subscription error callback sets loading to false while leaving
the token sequence unchanged; a subscription failure before any snapshot
delivery therefore yields an empty, non-loading view. -/
theorem subscription_error_spec (s : EngineState) (msg : String) :
    (step s (SessionEvent.subError msg)).tokens = s.tokens
    ∧ (step s (SessionEvent.subError msg)).isLoading = false
    ∧ (runSession [SessionEvent.subError msg]).tokens = []
    ∧ (runSession [SessionEvent.subError msg]).isLoading = false :=
  ⟨rfl, rfl, rfl, rfl⟩

/-! ### The derived view: search filter and stable sort -/

/-- `s.toLowerCase()`, modelled character-wise on the string's characters. -/
def lowerChars (s : String) : List Char :=
  s.data.map Char.toLower

/-- Does `needle` occur at the start of `hay`? (The prefix test underlying
JavaScript's `String.prototype.includes`.) -/
def strStarts : List Char → List Char → Bool
  | [], _ => true
  | _ :: _, [] => false
  | a :: as, b :: bs => a == b && strStarts as bs

/-- `hay.includes(needle)`: does `needle` occur contiguously anywhere in
`hay`? -/
def includesSub (hay needle : List Char) : Bool :=
  match hay with
  | [] => needle.isEmpty
  | c :: t => strStarts needle (c :: t) || includesSub t needle

/-- The filter predicate of `filteredAndSortedTokens` in page.tsx lines
168-171: `token.name.toLowerCase().includes(searchTerm.toLowerCase()) ||
token.address.toLowerCase().includes(searchTerm.toLowerCase())`. -/
def matchesSearch (searchTerm : String) (token : Token) : Bool :=
  includesSub (lowerChars token.name) (lowerChars searchTerm)
    || includesSub (lowerChars token.address) (lowerChars searchTerm)

/-- The boolean order corresponding to the comparator
`(a, b) => b.likes - a.likes`: a stable sort with that comparator keeps `a`
before `b` exactly when the comparator is ≤ 0, i.e. when `b.likes ≤ a.likes`. -/
def sortLe (a b : Token) : Bool :=
  decide (b.likes ≤ a.likes)

/-- `filteredAndSortedTokens` of page.tsx lines 167-172: filter by the search
term, then sort descending by like count. JavaScript's `Array.prototype.sort`
is guaranteed stable (ES2019), and a stable sort is uniquely determined by
its comparator and input, so it is modelled by the stable `List.mergeSort`. -/
def filteredAndSortedTokens (tokens : List Token) (searchTerm : String) : List Token :=
  (tokens.filter (matchesSearch searchTerm)).mergeSort sortLe

/-- `strStarts` decides the "is a prefix" relation, stated as an equation on
list concatenation. -/
theorem strStarts_iff (needle hay : List Char) :
    strStarts needle hay = true ↔ ∃ t, needle ++ t = hay := by
  induction needle generalizing hay with
  | nil =>
    simp [strStarts]
  | cons a as ih =>
    cases hay with
    | nil =>
      simp [strStarts]
    | cons b bs =>
      rw [strStarts, Bool.and_eq_true, beq_iff_eq, ih]
      constructor
      · rintro ⟨rfl, t, rfl⟩
        exact ⟨t, rfl⟩
      · rintro ⟨t, ht⟩
        rw [List.cons_append] at ht
        cases ht
        exact ⟨rfl, t, rfl⟩

/-- `includesSub` decides the "occurs as a contiguous substring" relation. -/
theorem includesSub_iff (hay needle : List Char) :
    includesSub hay needle = true ↔ ∃ u v, u ++ needle ++ v = hay := by
  induction hay with
  | nil =>
    rw [includesSub]
    cases needle with
    | nil => simp
    | cons a as => simp
  | cons c t ih =>
    rw [includesSub, Bool.or_eq_true, strStarts_iff, ih]
    constructor
    · rintro (⟨v, hv⟩ | ⟨u, v, hu⟩)
      · exact ⟨[], v, by simpa using hv⟩
      · exact ⟨c :: u, v, by rw [← hu]; rfl⟩
    · rintro ⟨u, v, hu⟩
      cases u with
      | nil =>
        left
        exact ⟨v, by simpa using hu⟩
      | cons x xs =>
        right
        rw [List.cons_append, List.cons_append] at hu
        cases hu
        exact ⟨xs, v, rfl⟩

/-- The empty search term matches every token. -/
theorem matchesSearch_empty (t : Token) : matchesSearch "" t = true := by
  have h : lowerChars "" = [] := rfl
  rw [matchesSearch, h, Bool.or_eq_true, includesSub_iff]
  left
  exact ⟨[], lowerChars t.name, by simp⟩

/-- C4: for every search term s, membership in the filtered sequence is
exactly "member of the input whose lowercased name or address contains the
lowercased s as a contiguous substring"; the empty search term leaves the
sequence untouched; and the final sorted view contains exactly the filtered
entries. -/
theorem search_filter_spec (tokens : List Token) (s : String) :
    (∀ e, e ∈ tokens.filter (matchesSearch s) ↔
        e ∈ tokens ∧
          ((∃ u v, u ++ lowerChars s ++ v = lowerChars e.name)
            ∨ (∃ u v, u ++ lowerChars s ++ v = lowerChars e.address)))
    ∧ tokens.filter (matchesSearch "") = tokens
    ∧ (∀ e, e ∈ filteredAndSortedTokens tokens s ↔ e ∈ tokens.filter (matchesSearch s)) := by
  refine ⟨?_, ?_, ?_⟩
  · intro e
    rw [List.mem_filter, matchesSearch, Bool.or_eq_true, includesSub_iff, includesSub_iff]
  · exact List.filter_eq_self.mpr fun t _ => matchesSearch_empty t
  · intro e
    exact List.mem_mergeSort

/-- Concrete witness for C4: the spec's own scenario — search term "foo"
keeps "Foo Token" (address "A") and drops "Bar" (address "B2"). -/
theorem search_filter_spec_witness :
    sampleTokenA ∈ [sampleTokenA, joinToken sampleTally sampleCatB].filter
      (matchesSearch "foo")
    ∧ [sampleTokenA].filter (matchesSearch "") = [sampleTokenA] := by
  constructor
  · exact ((search_filter_spec [sampleTokenA, joinToken sampleTally sampleCatB]
      "foo").1 sampleTokenA).mpr
      ⟨by decide, Or.inl ⟨[], [' ', 't', 'o', 'k', 'e', 'n'], by decide⟩⟩
  · exact (search_filter_spec [sampleTokenA] "").2.1

/-- The comparator order is transitive. -/
theorem sortLe_trans (a b c : Token) : sortLe a b → sortLe b c → sortLe a c := by
  simp only [sortLe, decide_eq_true_eq]
  omega

/-- The comparator order is total. -/
theorem sortLe_total (a b : Token) : sortLe a b || sortLe b a := by
  simp only [sortLe, Bool.or_eq_true, decide_eq_true_eq]
  omega

/-- Stability of the modelled sort: the subsequence of entries with any fixed
like count is unchanged by sorting. -/
theorem mergeSort_filter_likes (l : List Token) (k : Nat) :
    (l.mergeSort sortLe).filter (fun t => t.likes == k)
      = l.filter (fun t => t.likes == k) := by
  have hpw : (l.filter (fun t => t.likes == k)).Pairwise (fun a b => sortLe a b = true) := by
    apply List.pairwise_of_forall_mem_list
    intro a ha b hb
    have ha' := (List.mem_filter.mp ha).2
    have hb' := (List.mem_filter.mp hb).2
    simp only [beq_iff_eq] at ha' hb'
    simp only [sortLe, decide_eq_true_eq]
    omega
  have hsub : List.Sublist (l.filter (fun t => t.likes == k)) (l.mergeSort sortLe) :=
    List.sublist_mergeSort sortLe_trans sortLe_total hpw (List.filter_sublist l)
  have hself : (l.filter (fun t => t.likes == k)).filter (fun t => t.likes == k)
      = l.filter (fun t => t.likes == k) :=
    List.filter_eq_self.mpr fun a ha => (List.mem_filter.mp ha).2
  have hsub2 := hsub.filter (fun t => t.likes == k)
  rw [hself] at hsub2
  have hperm : ((l.mergeSort sortLe).filter (fun t => t.likes == k)).Perm
      (l.filter (fun t => t.likes == k)) :=
    (List.mergeSort_perm l sortLe).filter _
  exact (hsub2.eq_of_length hperm.length_eq.symm).symm

/-- C5: the derived sequence is sorted so that every earlier entry has at
least as many likes as every later one (hence an entry with strictly more
likes always appears before one with fewer); entries with equal like counts
retain their relative input order (stability, stated as preservation of every
equal-likes subsequence); and the output is a permutation of the filtered
input. -/
theorem sort_order_spec (tokens : List Token) (s : String) :
    List.Pairwise (fun a b => b.likes ≤ a.likes) (filteredAndSortedTokens tokens s)
    ∧ (∀ k, (filteredAndSortedTokens tokens s).filter (fun t => t.likes == k)
        = (tokens.filter (matchesSearch s)).filter (fun t => t.likes == k))
    ∧ (filteredAndSortedTokens tokens s).Perm (tokens.filter (matchesSearch s)) := by
  refine ⟨?_, ?_, ?_⟩
  · have h := List.sorted_mergeSort sortLe_trans sortLe_total
      (tokens.filter (matchesSearch s))
    exact h.imp fun hab => by simpa [sortLe] using hab
  · intro k
    exact mergeSort_filter_likes (tokens.filter (matchesSearch s)) k
  · exact List.mergeSort_perm (tokens.filter (matchesSearch s)) sortLe

/-- A minimal sample token with a given like count, for the sort witness. -/
def tokL (k : Nat) (nm : String) : Token :=
  { address := nm
    name := nm
    symbol := nm
    decimals := 0
    logoURI := ""
    tags := []
    daily_volume := 0
    freeze_authority := none
    mint_authority := none
    likes := k
    dislikes := 0 }

/-- Concrete witness for C5: the spec's own example, likes = [3,3,5,1] — the
two entries with 3 likes keep their relative input order in the sorted view. -/
theorem sort_order_spec_witness :
    (filteredAndSortedTokens [tokL 3 "a", tokL 3 "b", tokL 5 "c", tokL 1 "d"] "").filter
        (fun t => t.likes == 3)
      = [tokL 3 "a", tokL 3 "b"] := by
  have h := (sort_order_spec [tokL 3 "a", tokL 3 "b", tokL 5 "c", tokL 1 "d"] "").2.1 3
  rw [h]
  decide

/-! ### The vote write path and the remote tally store -/

/-- A Firestore document, as a partial map from field names to numeric
values (a missing field is `none`). -/
abbrev Doc := String → Option Nat

/-- The `coins` collection: a partial map from document id (token address)
to document (a missing document is `none`). -/
abbrev Store := String → Option Doc

/-- The value currently held by one field of one document, if any. -/
def fieldVal (store : Store) (addr fld : String) : Option Nat :=
  (store addr).bind fun d => d fld

/-- Modelled from the spec: the Firestore primitive
`setDoc(doc(db, "coins", addr), \x7b fld: increment(1) \x7d, \x7b merge: true \x7d)` used by the
vote handlers — Firestore itself is an external library, absent from src/.
Per the spec it is an atomic numeric increment with create-if-absent, merge
semantics: the named field becomes its previous value (0 when the field or
the whole document is absent) plus one, every other field of the document is
left as it was, and every other document is untouched. The whole
read-modify-write is one atomic step of the remote store. -/
def setDocMergeInc (store : Store) (addr fld : String) : Store :=
  fun a =>
    if a = addr then
      some fun f =>
        if f = fld then some ((fieldVal store addr fld).getD 0 + 1)
        else fieldVal store addr f
    else store a

/-- Unfolding `setDocMergeInc` at the written address: the document present
there afterwards. -/
theorem setDocMergeInc_self (store : Store) (addr fld : String) :
    setDocMergeInc store addr fld addr
      = some fun f =>
          if f = fld then some ((fieldVal store addr fld).getD 0 + 1)
          else fieldVal store addr f := by
  simp [setDocMergeInc]

/-- One increment command sent to the tally store: the document id and the
single field carrying `increment(1)`. -/
structure IncCommand where
  addr : String
  fld : String
  deriving DecidableEq

/-- Executing one increment command against the remote store. -/
def runCommand (store : Store) (c : IncCommand) : Store :=
  setDocMergeInc store c.addr c.fld

/-- `handleLike` of page.tsx lines 153-158: its body is a single
`setDoc(tokenRef, \x7b likes: increment(1) \x7d, \x7b merge: true \x7d)` call; it touches no
React state setter. Modelled as returning the unchanged client state together
with the list of commands issued. -/
def handleLike (s : EngineState) (address : String) : EngineState × List IncCommand :=
  (s, [⟨address, "likes"⟩])

/-- `handleDislike` of page.tsx lines 160-165: identical shape, on the
`dislikes` field. -/
def handleDislike (s : EngineState) (address : String) : EngineState × List IncCommand :=
  (s, [⟨address, "dislikes"⟩])

/-- C6: each invocation of `handleLike`/`handleDislike` issues exactly one
increment command, for the given address and the matching field, and performs
no mutation of the local token state — the client state (hence the displayed
counts) is returned unchanged, so counts change only via a later subscription
step. -/
theorem vote_handlers_spec (s : EngineState) (address : String) :
    (handleLike s address).2 = [⟨address, "likes"⟩]
    ∧ (handleLike s address).2.length = 1
    ∧ (handleLike s address).1 = s
    ∧ (handleLike s address).1.tokens = s.tokens
    ∧ (handleDislike s address).2 = [⟨address, "dislikes"⟩]
    ∧ (handleDislike s address).2.length = 1
    ∧ (handleDislike s address).1 = s
    ∧ (handleDislike s address).1.tokens = s.tokens :=
  ⟨rfl, rfl, rfl, rfl, rfl, rfl, rfl, rfl⟩

/-- C7: one merge-increment of a field is an atomic numeric add. If no
document exists for the address, the document is created with that field at
value 1 and every other field (the sibling included) absent; if a document
exists, the named field becomes its old value (0 when unset) plus one and
every other field is preserved unchanged; documents at other addresses are
untouched. -/
theorem increment_merge_spec (store : Store) (addr fld : String) :
    (∀ a, a ≠ addr → setDocMergeInc store addr fld a = store a)
    ∧ (store addr = none →
        ∃ d, setDocMergeInc store addr fld addr = some d
          ∧ d fld = some 1
          ∧ ∀ f, f ≠ fld → d f = none)
    ∧ (∀ d0, store addr = some d0 →
        ∃ d, setDocMergeInc store addr fld addr = some d
          ∧ d fld = some ((d0 fld).getD 0 + 1)
          ∧ ∀ f, f ≠ fld → d f = d0 f) := by
  refine ⟨?_, ?_, ?_⟩
  · intro a ha
    simp [setDocMergeInc, ha]
  · intro h
    refine ⟨_, setDocMergeInc_self store addr fld, ?_, ?_⟩
    · simp [fieldVal, h]
    · intro f hf
      simp [fieldVal, h, hf]
  · intro d0 h
    refine ⟨_, setDocMergeInc_self store addr fld, ?_, ?_⟩
    · simp [fieldVal, h]
    · intro f hf
      simp [fieldVal, h, hf]

/-- The store with no documents at all. -/
def emptyStore : Store := fun _ => none

/-- Concrete witness for C7: incrementing `likes` for address "A" on the
empty store creates the document with likes = 1 and the sibling `dislikes`
(like every other field) unset. -/
theorem increment_merge_spec_witness :
    ∃ d, setDocMergeInc emptyStore "A" "likes" "A" = some d
      ∧ d "likes" = some 1
      ∧ ∀ f, f ≠ "likes" → d f = none :=
  (increment_merge_spec emptyStore "A" "likes").2.1 rfl

/-- C8: two `increment(addr, likes)` commands against an initially absent
tally document leave likes = 2. Each command is one atomic step of the
modelled store, so a concurrent execution of the two commands is one of the
interleavings of the two atomic steps; the two commands are identical, so
both interleavings are this one composition, and no increment is lost. -/
theorem concurrent_increments_spec (store : Store) (addr : String)
    (h : store addr = none) :
    ∃ d, runCommand (runCommand store ⟨addr, "likes"⟩) ⟨addr, "likes"⟩ addr = some d
      ∧ d "likes" = some 2 := by
  show ∃ d, setDocMergeInc (setDocMergeInc store addr "likes") addr "likes" addr = some d
      ∧ d "likes" = some 2
  refine ⟨_, setDocMergeInc_self _ addr "likes", ?_⟩
  simp [fieldVal, setDocMergeInc, h]

/-- Concrete witness for C8: starting from the empty store, two increments on
address "A" yield likes = 2. -/
theorem concurrent_increments_spec_witness :
    ∃ d, runCommand (runCommand emptyStore ⟨"A", "likes"⟩) ⟨"A", "likes"⟩ "A" = some d
      ∧ d "likes" = some 2 :=
  concurrent_increments_spec emptyStore "A" rfl

end MemecoinVote
